import Mathlib

/-!
Shallow embedding of the manager-video classification tool (`bruh.py`):
filename parsing, pointer-to-cell mapping, the classification input loop,
playback cursor handling, CSV persistence and the end-of-session summary.
Each definition mirrors one function or code block of the source; theorems
below settle the specification claims against these definitions.
-/

namespace Bruh

/-! ### String helpers (Python `str.upper`, `str.lower`, `os.path.basename`) -/

/-- Python `str.upper` restricted to ASCII, as used on the status word. -/
def strUpper (s : String) : String := String.mk (s.data.map Char.toUpper)

/-- Python `str.lower` restricted to ASCII, as used on filename extensions. -/
def strLower (s : String) : String := String.mk (s.data.map Char.toLower)

/-- Python `os.path.basename`: the part of the path after the last '/'. -/
def basename (s : String) : String :=
  String.mk (s.data.foldl (fun acc c => if c = '/' then [] else acc ++ [c]) [])

/-- Boolean suffix test over the underlying character lists (Python
`str.endswith`). -/
def strEndsWith (s suffix : String) : Bool := suffix.data.isSuffixOf s.data

/-- Python regex word character `\w` (ASCII): letter, digit or underscore. -/
def isWordChar (c : Char) : Bool := c.isAlphanum || c == '_'

/-- Match a literal character sequence at the head of the input, returning
the remainder on success. -/
def stripLit : List Char → List Char → Option (List Char)
  | [], rest => some rest
  | _ :: _, [] => none
  | c :: cs, d :: ds => if c = d then stripLit cs ds else none

/-- Embedding of `re.match(r'(channel\d+)_(\d+T\d+)_(\w+)', base)` from
`extract_label_and_info`. Because `\d` and `\w` are disjoint from the
literal separators `_` and `T` that follow them, the greedy maximal-run
parse below is exactly the regex's backtracking semantics: returns the
three capture groups on a match, `none` otherwise. -/
def matchPattern (base : String) : Option (String × String × String) :=
  match stripLit "channel".data base.data with
  | none => none
  | some r1 =>
    let p1 := r1.span Char.isDigit
    if p1.1.isEmpty then none else
    match p1.2 with
    | '_' :: r3 =>
      let p2 := r3.span Char.isDigit
      if p2.1.isEmpty then none else
      match p2.2 with
      | 'T' :: r5 =>
        let p3 := r5.span Char.isDigit
        if p3.1.isEmpty then none else
        match p3.2 with
        | '_' :: r7 =>
          let p4 := r7.span isWordChar
          if p4.1.isEmpty then none else
          some (String.mk ("channel".data ++ p1.1),
                String.mk (p2.1 ++ 'T' :: p3.1),
                String.mk p4.1)
        | _ => none
      | _ => none
    | _ => none

/-- Embedding of `extract_label_and_info(filename)`: returns
`(display_label, original_name, model_status)`. -/
def extract_label_and_info (filename : String) : String × String × String :=
  let base := basename filename
  match matchPattern base with
  | some (channel, timestamp, statusRaw) =>
    let status := strUpper statusRaw
    let display_label := channel ++ "_" ++ status
    let original_name := channel ++ "_" ++ timestamp
    let model_status := if status = "FOUND" then "FOUND" else "NOT_FOUND"
    (display_label, original_name, model_status)
  | none => (base, base, "UNKNOWN")

/-! ### Pointer mapping (`mouse_callback`, `get_clicked_video_index`) -/

/-- Embedding of `mouse_callback`: a left-button event at window
coordinates `(x, y)` buffers `(x, y - 40)`, adjusting for the 40-pixel
status bar. -/
def mouse_callback_coords (x y : Int) : Int × Int := (x, y - 40)

/-- Embedding of `get_clicked_video_index(x, y, cols, rows, frame_width,
frame_height, total_videos)`. Python `//` is floor division, hence
`Int.fdiv`. -/
def get_clicked_video_index (x y cols rows frame_width frame_height total_videos : Int) :
    Option Int :=
  if y < 0 then none
  else
    let label_height : Int := 30
    let video_height_with_label := frame_height + label_height
    let col := Int.fdiv x frame_width
    let row := Int.fdiv y video_height_with_label
    if col ≥ cols ∨ row ≥ rows then none
    else
      let index := row * cols + col
      if index < total_videos then some index else none

/-- The full pointer-to-cell pipeline of the source: the raw window click
goes through `mouse_callback`'s status-bar adjustment, then through
`get_clicked_video_index`. -/
def map_pointer_to_index (px py cols rows frame_width frame_height total : Int) : Option Int :=
  let c := mouse_callback_coords px py
  get_clicked_video_index c.1 c.2 cols rows frame_width frame_height total

/-! ### Input loop state (`main`, lines 288-405) -/

/-- Per-clip metadata captured at load time (`video_info` entries). -/
structure VideoInfo where
  original_name : String
  model_status : String
deriving DecidableEq, Repr

/-- One row of the classification CSV. -/
structure LogRec where
  video_name : String
  model_status : String
  manual_status : String
deriving DecidableEq, Repr

/-- The `pending_classification` dictionary. -/
structure Pending where
  index : Int
  original_name : String
  model_status : String
deriving DecidableEq, Repr

/-- Key codes relevant to the loop; `other` stands for any unmapped key
(including no key). -/
inductive Key
  | q | space | r | t | f | esc | other
deriving DecidableEq, Repr

/-- The mutable state touched by the input-handling part of a tick:
`pending_classification`, the buffered `click_coords`, the `paused` flag,
and the CSV rows written so far. -/
structure UIState where
  pending : Option Pending
  click : Option (Int × Int)
  paused : Bool
  log : List LogRec
deriving DecidableEq, Repr

/-- Python list indexing (supports negative indices; `none` models an
`IndexError`). -/
def pyListGet (l : List VideoInfo) (i : Int) : Option VideoInfo :=
  let j := if i < 0 then (l.length : Int) + i else i
  if 0 ≤ j ∧ j < (l.length : Int) then l.get? j.toNat else none

/-- Embedding of the key-handling chain of `main` (lines 357-385). The
`q` key breaks the loop without touching this state; `r` rewinds playback
(modelled separately) without touching this state; `t`/`f`/`esc` act only
while a classification is pending. -/
def handle_key (s : UIState) (k : Key) : UIState :=
  match k with
  | .q => s
  | .space => { s with paused := !s.paused }
  | .r => s
  | _ =>
    match s.pending with
    | some p =>
      match k with
      | .t => { s with pending := none,
                       log := s.log ++ [⟨p.original_name, p.model_status, "FOUND"⟩] }
      | .f => { s with pending := none,
                       log := s.log ++ [⟨p.original_name, p.model_status, "NOT_FOUND"⟩] }
      | .esc => { s with pending := none }
      | _ => s
    | none => s

/-- Embedding of the click-handling block of `main` (lines 388-405): runs
only when a click is buffered AND no classification is pending; in that
case the click is consumed (cleared) whatever the mapping outcome. -/
def handle_click (s : UIState) (info : List VideoInfo) (cols rows fw fh : Int) : UIState :=
  match s.click with
  | none => s
  | some c =>
    if s.pending = none then
      let s1 :=
        match get_clicked_video_index c.1 c.2 cols rows fw fh (info.length : Int) with
        | some idx =>
          if idx < (info.length : Int) then
            match pyListGet info idx with
            | some v =>
              { s with pending := some ⟨idx, v.original_name, v.model_status⟩ }
            | none => s
          else s
        | none => s
      { s1 with click := none }
    else s

/-- One input pass of the tick: key handling first, then click handling,
in source order; the `q` key breaks out before the click block runs. -/
def input_step (s : UIState) (info : List VideoInfo) (cols rows fw fh : Int) (k : Key) :
    UIState :=
  if k = .q then s else handle_click (handle_key s k) info cols rows fw fh

/-- Embedding of a mouse press arriving between ticks: `mouse_callback`
overwrites the single buffered click. -/
def mouse_event (s : UIState) (x y : Int) : UIState :=
  { s with click := some (mouse_callback_coords x y) }

/-! ### Playback (`main` frame loop, lines 291-327, `rewind_all_videos`) -/

/-- One clip's playback state: the stream length in frames, the decode
cursor (`CAP_PROP_POS_FRAMES`) and the `video_done` flag. -/
structure Clip where
  length : Nat
  pos : Nat
  done : Bool
deriving DecidableEq, Repr

/-- What a tick shows for one cell: a decoded frame (identified by its
stream index) or the blank placeholder. -/
inductive Frame
  | decoded (idx : Nat)
  | blank
deriving DecidableEq, Repr

/-- Embedding of `cap.read()`: succeeds exactly when the cursor is before
end of stream, advancing the cursor; a failed read leaves it in place. -/
def readFrame (c : Clip) : Bool × Clip :=
  if c.pos < c.length then (true, { c with pos := c.pos + 1 }) else (false, c)

/-- Embedding of the per-clip branch of the frame loop (lines 292-311):
unpaused clips advance; paused clips are probed and the cursor restored;
a failed read marks the clip done and shows the blank placeholder. -/
def clip_tick (paused : Bool) (c : Clip) : Frame × Clip :=
  if !c.done && !paused then
    let r := readFrame c
    if r.1 then (.decoded c.pos, r.2)
    else (.blank, { r.2 with done := true })
  else if !c.done && paused then
    let current_pos := c.pos
    let r := readFrame c
    if r.1 then (.decoded c.pos, { r.2 with pos := current_pos })
    else (.blank, { r.2 with done := true })
  else (.blank, c)

/-- The state part of `clip_tick`. -/
def clip_step (paused : Bool) (c : Clip) : Clip := (clip_tick paused c).2

/-- Embedding of the loop-reset block (lines 322-327): when every clip is
done and playback is not paused, each done clip's cursor is reset and its
flag cleared. -/
def loop_reset (paused : Bool) (cs : List Clip) : List Clip :=
  if cs.all (fun c => c.done) && !paused then
    cs.map (fun c => if c.done then { c with pos := 0, done := false } else c)
  else cs

/-- One full playback pass of the tick: per-clip frame phase, then the
all-exhausted loop reset. -/
def playback_tick (paused : Bool) (cs : List Clip) : List Clip :=
  loop_reset paused (cs.map (clip_step paused))

/-- Embedding of `rewind_all_videos`: unconditional reset of every cursor
and every done flag. -/
def rewind_all_videos (cs : List Clip) : List Clip :=
  cs.map (fun c => { c with pos := 0, done := false })

/-! ### CSV persistence (`save_to_csv`, `print_summary`) -/

/-- One line of the CSV file: the header row or a data row. -/
inductive CsvLine
  | header
  | data (r : LogRec)
deriving DecidableEq, Repr

/-- Embedding of `save_to_csv`: `none` models a nonexistent destination
(`os.path.isfile` false). Opening with mode `'a'` creates the file; the
header is written exactly when the file did not previously exist, then the
record is appended as one row. Returns the file's lines afterwards. -/
def save_to_csv (file : Option (List CsvLine)) (original_name model_status manual_status : String) :
    List CsvLine :=
  let rec_ : LogRec := ⟨original_name, model_status, manual_status⟩
  match file with
  | none => [CsvLine.header, CsvLine.data rec_]
  | some lines => lines ++ [CsvLine.data rec_]

/-- A sequence of `save_to_csv` calls against an evolving file. -/
def appendAll (file : Option (List CsvLine)) (recs : List LogRec) : Option (List CsvLine) :=
  recs.foldl (fun f r => some (save_to_csv f r.video_name r.model_status r.manual_status)) file

/-- One parsed row of the summary read (only the two verdict columns
matter). -/
structure SummaryRow where
  model_status : String
  manual_status : String
deriving DecidableEq, Repr

/-- The agreement count of `print_summary`: rows whose model and manual
verdicts are equal as strings. -/
def agreements (rows : List SummaryRow) : Nat :=
  (rows.filter (fun r => r.model_status = r.manual_status)).length

/-- Observable outcome of `print_summary`: the file does not exist (the
whole block is skipped); reading raised and was caught (error reported,
normal return); the file parsed to zero rows (nothing printed); or the
summary with count, agreement count and the percentage rate. -/
inductive SummaryOutcome
  | noFile
  | readError
  | noRows
  | report (count agreementCount : Nat) (rate : ℚ)
deriving DecidableEq, Repr

/-- Embedding of `print_summary`: the outer `Option` models file
existence, the `Except` models whether reading/parsing raised. Exceptions
are caught (`readError`), never propagated, so the session's exit path is
unaffected. The rate is printed only when there is at least one row. -/
def print_summary (file : Option (Except String (List SummaryRow))) : SummaryOutcome :=
  match file with
  | none => .noFile
  | some (.error _) => .readError
  | some (.ok rows) =>
    if rows.isEmpty then .noRows
    else .report rows.length (agreements rows)
      (((agreements rows : ℚ) / (rows.length : ℚ)) * 100)

/-! ### Startup (`get_available_folders`, `main` lines 216-247) -/

/-- Accepted video extensions filter from `main` (line 242). -/
def accepted_ext (f : String) : Bool :=
  let l := strLower f
  strEndsWith l ".mp4" || strEndsWith l ".avi" || strEndsWith l ".mov" || strEndsWith l ".mkv"

/-- Embedding of `get_available_folders`: `basePathExists` models
`os.path.exists(base_path)`, `folders` the subdirectories found; an
`Except.error` models a raised `FileNotFoundError` with its message. -/
def get_available_folders (base_path : String) (basePathExists : Bool)
    (folders : List String) : Except String (List String) :=
  if basePathExists = false then
    .error ("Base path does not exist: " ++ base_path)
  else if folders.isEmpty then
    .error ("No folders found in " ++ base_path)
  else
    .ok (folders.insertionSort (fun a b => b ≤ a))

/-- How the startup section of `main` ends. -/
inductive StartupOutcome
  | abortNotFound (msg : String)
  | abortNoVideos
  | proceed (video_files : List String)
deriving DecidableEq, Repr

/-- True exactly on the outcome produced by a raised-and-caught
`FileNotFoundError`. -/
def isNotFoundAbort : StartupOutcome → Bool
  | .abortNotFound _ => true
  | _ => false

/-- Embedding of the startup section of `main` (lines 216-247):
`select_folder` is wrapped in try/except, so a `FileNotFoundError` from
`get_available_folders` is caught, its message printed, and `main`
returns (`abortNotFound`). Otherwise the chosen folder's directory
listing `chosenFiles` (empty when the folder is missing, as `glob`
returns `[]` then) is sorted and filtered by extension; an empty result
prints "No video files found." and returns (`abortNoVideos`). Every
abort happens before the window is created or any log is written. -/
def main_startup (base_path : String) (basePathExists : Bool)
    (folders : List String) (chosenFiles : List String) : StartupOutcome :=
  match get_available_folders base_path basePathExists folders with
  | .error msg => .abortNotFound msg
  | .ok _ =>
    let video_files := (chosenFiles.insertionSort (fun a b => a ≤ b)).filter accepted_ext
    if video_files.isEmpty then .abortNoVideos
    else .proceed video_files

/-! ### Shared lemmas -/

/-- Appending records to an existing file only ever appends data rows. -/
theorem appendAll_some : ∀ (recs : List LogRec) (ls : List CsvLine),
    appendAll (some ls) recs = some (ls ++ recs.map CsvLine.data)
  | [], _ => by simp [appendAll]
  | r :: rs, ls => by
    show appendAll (some (ls ++ [CsvLine.data r])) rs = _
    rw [appendAll_some rs]
    simp

/-- A successful pointer mapping always lands strictly below the total. -/
theorem get_clicked_lt_total {x y cols rows fw fh t i : Int}
    (h : get_clicked_video_index x y cols rows fw fh t = some i) : i < t := by
  simp only [get_clicked_video_index] at h
  split_ifs at h with h1 h2 h3
  all_goals first
    | exact Option.noConfusion h
    | (cases h; assumption)

/-- A done clip is untouched by the per-clip frame phase. -/
theorem clip_step_done {p : Bool} {c : Clip} (h : c.done = true) :
    clip_step p c = c := by
  simp [clip_step, clip_tick, h]

/-! ### Claims -/

/-- C3: for every filename matching the naming grammar, the parser yields
displayLabel = channel ++ "_" ++ uppercased status, canonicalName =
channel ++ "_" ++ timestamp, and verdict FOUND exactly when the status
word case-insensitively equals "found" (NOT_FOUND otherwise); every
non-matching filename falls back to the raw (base) filename with verdict
UNKNOWN; the function is total, so it never raises. -/
theorem C3_filename_parsing (f ch ts w : String) :
    (matchPattern (basename f) = some (ch, ts, w) →
      extract_label_and_info f =
        (ch ++ "_" ++ strUpper w, ch ++ "_" ++ ts,
          if strUpper w = strUpper "found" then "FOUND" else "NOT_FOUND") ∧
      ((extract_label_and_info f).2.2 = "FOUND" ↔ strUpper w = strUpper "found") ∧
      (strUpper w ≠ strUpper "found" → (extract_label_and_info f).2.2 = "NOT_FOUND")) ∧
    (matchPattern (basename f) = none →
      extract_label_and_info f = (basename f, basename f, "UNKNOWN")) ∧
    extract_label_and_info "channel502_20250618T145831_found.mkv" =
      ("channel502_FOUND", "channel502_20250618T145831", "FOUND") := by
  have hfound : strUpper "found" = "FOUND" := by decide
  refine ⟨fun h => ?_, fun h => ?_, by decide⟩
  · rw [hfound]
    have he : extract_label_and_info f =
        (ch ++ "_" ++ strUpper w, ch ++ "_" ++ ts,
          if strUpper w = "FOUND" then "FOUND" else "NOT_FOUND") := by
      simp only [extract_label_and_info, h]
    refine ⟨he, ?_, ?_⟩
    · rw [he]
      by_cases hw : strUpper w = "FOUND"
      · simp [hw]
      · simp only [if_neg hw]
        constructor
        · intro hbad; exact absurd hbad (by decide)
        · intro hbad; exact absurd hbad hw
    · intro hw
      rw [he]
      simp only [if_neg hw]
  · simp only [extract_label_and_info, h]

/-- C3 witness: the grammar example of the spec, with every hypothesis
discharged concretely. -/
theorem C3_filename_parsing_witness :
    matchPattern (basename "channel502_20250618T145831_found.mkv") =
      some ("channel502", "20250618T145831", "found") ∧
    extract_label_and_info "channel502_20250618T145831_found.mkv" =
      ("channel502" ++ "_" ++ strUpper "found", "channel502" ++ "_" ++ "20250618T145831",
        if strUpper "found" = strUpper "found" then "FOUND" else "NOT_FOUND") :=
  ⟨by decide,
    ((C3_filename_parsing "channel502_20250618T145831_found.mkv"
      "channel502" "20250618T145831" "found").1 (by decide)).1⟩

/-- C2 counterexample: the claim asserts a click at (330, 310) on the 2x2,
320x240 grid with 3 clips yields index 1, but row = (310 - 40) fdiv 270 = 1
and index = 1*2 + 1 = 3 >= 3, so the code yields none. -/
theorem C2_pointer_mapping_counterexample :
    map_pointer_to_index 330 310 2 2 320 240 3 = none ∧
    map_pointer_to_index 330 310 2 2 320 240 3 ≠ some 1 := by decide

/-- C2 (amended): the general mapping is as claimed — subtract the
status-bar height, negative y yields none, column/row by floor division,
none on any out-of-range condition — but the concrete click (330, 310)
falls in row 1 giving filler index 3 >= 3 and so yields none ((330, 300)
is a nearby click that yields index 1); (330, 580) yields none as
claimed. -/
theorem C2_pointer_mapping_amended (px py cols rows fw fh total : Int) :
    (py - 40 < 0 → map_pointer_to_index px py cols rows fw fh total = none) ∧
    (0 ≤ py - 40 →
      (Int.fdiv px fw ≥ cols ∨ Int.fdiv (py - 40) (fh + 30) ≥ rows ∨
          Int.fdiv (py - 40) (fh + 30) * cols + Int.fdiv px fw ≥ total →
        map_pointer_to_index px py cols rows fw fh total = none) ∧
      (Int.fdiv px fw < cols → Int.fdiv (py - 40) (fh + 30) < rows →
        Int.fdiv (py - 40) (fh + 30) * cols + Int.fdiv px fw < total →
        map_pointer_to_index px py cols rows fw fh total =
          some (Int.fdiv (py - 40) (fh + 30) * cols + Int.fdiv px fw))) ∧
    map_pointer_to_index 330 310 2 2 320 240 3 = none ∧
    map_pointer_to_index 330 300 2 2 320 240 3 = some 1 ∧
    map_pointer_to_index 330 580 2 2 320 240 3 = none := by
  refine ⟨fun hneg => ?_, fun hpos => ⟨fun hbad => ?_, fun hcol hrow hidx => ?_⟩,
    by decide, by decide, by decide⟩
  · simp only [map_pointer_to_index, mouse_callback_coords, get_clicked_video_index]
    rw [if_pos hneg]
  · simp only [map_pointer_to_index, mouse_callback_coords, get_clicked_video_index]
    split_ifs with h1 h2 h3
    · rfl
    · rfl
    · exfalso
      rcases hbad with h | h | h
      · exact h2 (Or.inl h)
      · exact h2 (Or.inr h)
      · exact absurd h3 (not_lt.mpr h)
    · rfl
  · simp only [map_pointer_to_index, mouse_callback_coords, get_clicked_video_index]
    split_ifs with h1 h2
    · exact absurd h1 (by omega)
    · exfalso
      rcases h2 with h | h
      · exact absurd hcol (not_lt.mpr h)
      · exact absurd hrow (not_lt.mpr h)
    · rfl

/-- C2 witness: the amended in-range case applied at the concrete click
(330, 300) on the 2x2 grid with 3 clips. -/
theorem C2_pointer_mapping_amended_witness :
    0 ≤ (300 : Int) - 40 ∧
    map_pointer_to_index 330 300 2 2 320 240 3 =
      some (Int.fdiv (300 - 40) (240 + 30) * 2 + Int.fdiv 330 320) :=
  ⟨by decide,
    ((C2_pointer_mapping_amended 330 300 2 2 320 240 3).2.1 (by decide)).2
      (by decide) (by decide) (by decide)⟩

/-- C6: starting from a nonexistent destination, any sequence of n >= 1
append calls yields exactly one header row followed by the n data rows in
order; in particular the header is written only on the first call. -/
theorem C6_header_idempotent (recs : List LogRec) (h : recs ≠ []) :
    appendAll none recs = some (CsvLine.header :: recs.map CsvLine.data) ∧
    (CsvLine.header :: recs.map CsvLine.data).count CsvLine.header = 1 ∧
    (recs.map CsvLine.data).length = recs.length := by
  refine ⟨?_, ?_, by simp⟩
  · match recs, h with
    | r :: rs, _ =>
      show appendAll (some [CsvLine.header, CsvLine.data r]) rs = _
      rw [appendAll_some rs]
      simp
  · rw [List.count_cons_self, List.count_eq_zero.mpr]
    · intro hmem
      rcases List.mem_map.mp hmem with ⟨r, _, hr⟩
      exact CsvLine.noConfusion hr

/-- C6 witness: two sequential appends from a nonexistent destination give
one header then the two data rows. -/
theorem C6_header_idempotent_witness :
    ([(⟨"a", "FOUND", "FOUND"⟩ : LogRec), ⟨"b", "FOUND", "NOT_FOUND"⟩] ≠ []) ∧
    appendAll none [(⟨"a", "FOUND", "FOUND"⟩ : LogRec), ⟨"b", "FOUND", "NOT_FOUND"⟩] =
      some [CsvLine.header, CsvLine.data ⟨"a", "FOUND", "FOUND"⟩,
            CsvLine.data ⟨"b", "FOUND", "NOT_FOUND"⟩] :=
  ⟨by decide,
    (C6_header_idempotent [⟨"a", "FOUND", "FOUND"⟩, ⟨"b", "FOUND", "NOT_FOUND"⟩]
      (by decide)).1⟩

/-- C10: the header decision of save_to_csv depends only on prior file
existence, never on content: against any existing file (including an
empty zero-row one) it appends exactly the data row and no header, so a
log built entirely on an initially-existing empty file never contains a
header row. -/
theorem C10_header_by_existence_only (ls : List CsvLine) (recs : List LogRec)
    (n m mm : String) :
    save_to_csv (some ls) n m mm = ls ++ [CsvLine.data ⟨n, m, mm⟩] ∧
    appendAll (some []) recs = some (recs.map CsvLine.data) ∧
    CsvLine.header ∉ recs.map CsvLine.data := by
  refine ⟨rfl, by simpa using appendAll_some recs [], ?_⟩
  intro hmem
  rcases List.mem_map.mp hmem with ⟨r, _, hr⟩
  exact CsvLine.noConfusion hr

/-- C7: for every readable log, the agreement count is exactly the number
of rows whose model and manual verdicts are equal as strings, the rate is
agreements/count as a percentage and is reported only when there is at
least one row (3 matching rows of 4 give 75.0%); a missing, unreadable or
corrupt log is reported and skipped without raising, leaving the exit
path unaffected. -/
theorem C7_summary_agreement (rows : List SummaryRow) (e : String) (hne : rows ≠ []) :
    print_summary (some (.ok rows)) =
      .report rows.length
        ((rows.filter (fun r => r.model_status = r.manual_status)).length)
        ((((rows.filter (fun r => r.model_status = r.manual_status)).length : ℚ) /
          (rows.length : ℚ)) * 100) ∧
    print_summary (some (.error e)) = .readError ∧
    print_summary none = .noFile ∧
    print_summary (some (.ok [])) = .noRows ∧
    print_summary (some (.ok [⟨"FOUND", "FOUND"⟩, ⟨"NOT_FOUND", "NOT_FOUND"⟩,
        ⟨"FOUND", "FOUND"⟩, ⟨"FOUND", "NOT_FOUND"⟩])) = .report 4 3 75 := by
  refine ⟨?_, rfl, rfl, rfl, ?_⟩
  · have hie : rows.isEmpty = false := by
      cases rows with
      | nil => exact absurd rfl hne
      | cons a l => rfl
    simp [print_summary, agreements, hie]
  · simp [print_summary, agreements]
    norm_num

/-- C7 witness: the four-row log with three agreements, reported as 75%. -/
theorem C7_summary_agreement_witness :
    ([⟨"FOUND", "FOUND"⟩, ⟨"NOT_FOUND", "NOT_FOUND"⟩, ⟨"FOUND", "FOUND"⟩,
        ⟨"FOUND", "NOT_FOUND"⟩] : List SummaryRow) ≠ [] ∧
    print_summary (some (.ok [⟨"FOUND", "FOUND"⟩, ⟨"NOT_FOUND", "NOT_FOUND"⟩,
        ⟨"FOUND", "FOUND"⟩, ⟨"FOUND", "NOT_FOUND"⟩])) = .report 4 3 75 :=
  ⟨by decide,
    (C7_summary_agreement [⟨"FOUND", "FOUND"⟩, ⟨"NOT_FOUND", "NOT_FOUND"⟩,
      ⟨"FOUND", "FOUND"⟩, ⟨"FOUND", "NOT_FOUND"⟩] "e" (by decide)).2.2.2.2⟩

/-- C5: when every clip is exhausted and playback is not paused, the very
next tick resets every cursor to the start and clears every done flag;
while paused the reset never fires — the all-exhausted state is a fixed
point of the paused tick for any number of ticks, so exhausted clips
remain exhausted as long as the pause holds. -/
theorem C5_all_exhausted_loop (cs : List Clip) (n : Nat)
    (hall : cs.all (fun c => c.done) = true) :
    (playback_tick false cs).all (fun c => c.pos == 0 && !c.done) = true ∧
    (playback_tick true)^[n] cs = cs := by
  have hmem := List.all_eq_true.mp hall
  have hstep : ∀ p, cs.map (clip_step p) = cs := by
    intro p
    calc cs.map (clip_step p)
        = cs.map id := List.map_congr_left (fun c hc => clip_step_done (hmem c hc))
      _ = cs := List.map_id cs
  constructor
  · rw [playback_tick, hstep, loop_reset, if_pos (by simp [hall]), List.all_eq_true]
    intro c hc
    rcases List.mem_map.mp hc with ⟨a, ha, rfl⟩
    have hd := hmem a ha
    simp [hd]
  · have hfix : playback_tick true cs = cs := by
      rw [playback_tick, hstep true, loop_reset, if_neg (by simp)]
    exact Function.iterate_fixed hfix n

/-- C5 witness: two exhausted clips, with the unpaused tick resetting both
and two paused ticks changing nothing. -/
theorem C5_all_exhausted_loop_witness :
    ([(⟨2, 1, true⟩ : Clip), ⟨3, 0, true⟩].all (fun c => c.done)) = true ∧
    (playback_tick false [⟨2, 1, true⟩, ⟨3, 0, true⟩]).all
      (fun c => c.pos == 0 && !c.done) = true ∧
    (playback_tick true)^[2] [(⟨2, 1, true⟩ : Clip), ⟨3, 0, true⟩] =
      [⟨2, 1, true⟩, ⟨3, 0, true⟩] :=
  ⟨by decide, (C5_all_exhausted_loop [⟨2, 1, true⟩, ⟨3, 0, true⟩] 2 (by decide)).1,
    (C5_all_exhausted_loop [⟨2, 1, true⟩, ⟨3, 0, true⟩] 2 (by decide)).2⟩

/-- C8 counterexample: the claim says a paused tick leaves every clip's
done flag equal to its prior value, but a non-exhausted clip whose cursor
sits at end of stream (cursor 1 of a 1-frame clip, reachable by pausing
right after the last decoded frame) has its probe read fail while paused,
which marks it exhausted. -/
theorem C8_paused_probe_counterexample :
    ((⟨1, 1, false⟩ : Clip).done = false) ∧
    (clip_step true (⟨1, 1, false⟩ : Clip)).done = true := by decide

/-- C8 (amended): a paused tick never moves any clip's cursor (the probe
read's advance is restored) and leaves exhausted clips fully untouched; a
non-exhausted clip before end of stream returns the frame at the cursor,
identically on every consecutive paused tick, with state unchanged; the
one deviation from the claim is a non-exhausted clip whose probe read
fails (cursor at end of stream), which is marked exhausted — cursor still
unchanged. -/
theorem C8_paused_tick_amended (c : Clip) :
    (clip_step true c).pos = c.pos ∧
    (c.done = true → clip_tick true c = (Frame.blank, c)) ∧
    (c.done = false → c.pos < c.length →
      clip_tick true c = (Frame.decoded c.pos, c) ∧
      clip_tick true (clip_tick true c).2 = clip_tick true c) ∧
    (c.done = false → ¬ c.pos < c.length →
      clip_tick true c = (Frame.blank, { c with done := true })) := by
  rcases c with ⟨len, pos, done⟩
  cases done <;> by_cases h : pos < len <;>
    simp [clip_step, clip_tick, readFrame, h]

/-- C8 witness: a clip two frames into a five-frame stream, probed while
paused: same frame back, state unchanged. -/
theorem C8_paused_tick_amended_witness :
    ((⟨5, 2, false⟩ : Clip).done = false) ∧ (2 : Nat) < 5 ∧
    clip_tick true (⟨5, 2, false⟩ : Clip) = (Frame.decoded 2, ⟨5, 2, false⟩) :=
  ⟨rfl, by decide, ((C8_paused_tick_amended ⟨5, 2, false⟩).2.2.1 rfl (by decide)).1⟩

/-- C1: the classification controller is the claimed two-state machine.
From Idle (no pending selection), a buffered click that maps to a valid
clip index enters AwaitingDecision capturing that clip's canonical name
and automated verdict, writing nothing to the log. From AwaitingDecision,
the T key returns to Idle appending exactly one record with manual
verdict FOUND, the F key returns to Idle appending exactly one record
with manual verdict NOT_FOUND, and ESC returns to Idle with zero log
writes; the pending selection is cleared in every case. -/
theorem C1_classification_state_machine (s : UIState) (info : List VideoInfo)
    (cols rows fw fh x y i : Int) (v : VideoInfo) (p : Pending) :
    (s.pending = none → s.click = some (x, y) →
      get_clicked_video_index x y cols rows fw fh (info.length : Int) = some i →
      pyListGet info i = some v →
      handle_click s info cols rows fw fh =
        { s with pending := some ⟨i, v.original_name, v.model_status⟩, click := none }) ∧
    (s.pending = some p →
      handle_key s .t =
        { s with pending := none,
                 log := s.log ++ [⟨p.original_name, p.model_status, "FOUND"⟩] } ∧
      handle_key s .f =
        { s with pending := none,
                 log := s.log ++ [⟨p.original_name, p.model_status, "NOT_FOUND"⟩] } ∧
      handle_key s .esc = { s with pending := none }) := by
  constructor
  · intro hp hc hg hv
    have hlt : i < (info.length : Int) := get_clicked_lt_total hg
    simp [handle_click, hc, hp, hg, hv, hlt]
  · intro hp
    refine ⟨?_, ?_, ?_⟩ <;> simp [handle_key, hp]

/-- C1 witness: a single-clip session — a click at cell (0,0) enters
AwaitingDecision for clip 0, and from AwaitingDecision the T key returns
to Idle having appended exactly the FOUND record. -/
theorem C1_classification_state_machine_witness :
    get_clicked_video_index 10 10 1 1 320 240 1 = some 0 ∧
    handle_click ⟨none, some (10, 10), false, []⟩
        [⟨"channel502_20250618T145831", "FOUND"⟩] 1 1 320 240 =
      ⟨some ⟨0, "channel502_20250618T145831", "FOUND"⟩, none, false, []⟩ ∧
    handle_key ⟨some ⟨0, "channel502_20250618T145831", "FOUND"⟩, none, false, []⟩ .t =
      ⟨none, none, false, [⟨"channel502_20250618T145831", "FOUND", "FOUND"⟩]⟩ :=
  ⟨by decide,
    (C1_classification_state_machine ⟨none, some (10, 10), false, []⟩
      [⟨"channel502_20250618T145831", "FOUND"⟩] 1 1 320 240 10 10 0
      ⟨"channel502_20250618T145831", "FOUND"⟩
      ⟨0, "channel502_20250618T145831", "FOUND"⟩).1 rfl rfl (by decide) (by decide),
    ((C1_classification_state_machine
      ⟨some ⟨0, "channel502_20250618T145831", "FOUND"⟩, none, false, []⟩
      [] 1 1 320 240 0 0 0 ⟨"", ""⟩
      ⟨0, "channel502_20250618T145831", "FOUND"⟩).2 rfl).1⟩

/-- C4 counterexample: the claim says the buffered click is consumed and
cleared on every tick and a click received while a selection is pending
never survives to select a clip later — but with a pending selection the
click block is skipped entirely, so the click stays buffered through an
idle tick, and on the tick where T resolves the selection the stale click
is processed (clicks come after keys), immediately creating a new
selection. -/
theorem C4_click_buffer_counterexample :
    (input_step ⟨some ⟨0, "n0", "FOUND"⟩, some (10, 10), false, []⟩
        [⟨"n0", "FOUND"⟩] 1 1 320 240 .other).click = some (10, 10) ∧
    (input_step ⟨some ⟨0, "n0", "FOUND"⟩, some (10, 10), false, []⟩
        [⟨"n0", "FOUND"⟩] 1 1 320 240 .t).pending = some ⟨0, "n0", "FOUND"⟩ := by decide

/-- C4 (amended): at most one click is ever buffered (a new press
overwrites the buffer, already adjusted by the status-bar offset), and a
tick's click phase consumes and clears the buffer whenever no selection
is pending; but while a selection is pending the click phase does nothing
at all — the buffered click is neither processed nor cleared, and it is
processed on the first tick whose click phase finds no pending selection
(possibly the very tick a decision key resolved it). -/
theorem C4_click_buffer_amended (s : UIState) (info : List VideoInfo)
    (cols rows fw fh x y : Int) :
    (mouse_event s x y).click = some (x, y - 40) ∧
    (s.pending ≠ none → handle_click s info cols rows fw fh = s) ∧
    (s.pending = none → (handle_click s info cols rows fw fh).click = none) := by
  refine ⟨rfl, fun hp => ?_, fun hp => ?_⟩
  · cases hc : s.click with
    | none => simp [handle_click, hc]
    | some c => simp [handle_click, hc, hp]
  · cases hc : s.click with
    | none => rw [show handle_click s info cols rows fw fh = s by simp [handle_click, hc]]
              exact hc
    | some c =>
      simp only [handle_click, hc]
      rw [if_pos hp]

/-- C4 witness: the amended behavior at concrete states — a pending
selection freezes the click phase; with no pending selection the click is
cleared. -/
theorem C4_click_buffer_amended_witness :
    ((⟨some ⟨0, "n", "F"⟩, some (3, 3), false, []⟩ : UIState).pending ≠ none) ∧
    handle_click ⟨some ⟨0, "n", "F"⟩, some (3, 3), false, []⟩ [] 1 1 320 240 =
      ⟨some ⟨0, "n", "F"⟩, some (3, 3), false, []⟩ ∧
    ((⟨none, some (3, 3), false, []⟩ : UIState).pending = none) ∧
    (handle_click ⟨none, some (3, 3), false, []⟩ [] 1 1 320 240).click = none :=
  ⟨by decide,
    (C4_click_buffer_amended ⟨some ⟨0, "n", "F"⟩, some (3, 3), false, []⟩
      [] 1 1 320 240 0 0).2.1 (by decide),
    rfl,
    (C4_click_buffer_amended ⟨none, some (3, 3), false, []⟩
      [] 1 1 320 240 0 0).2.2 rfl⟩

/-- C9 counterexample: the claim says the load step fails with
NotFoundError when the chosen directory is missing or has no accepted
video files — but on a folder listing with no accepted extension the code
prints "No video files found." and returns without raising any
exception, so the outcome is not a NotFoundError. -/
theorem C9_startup_counterexample :
    main_startup "~/Downloads/managerVids" true ["20250618"] ["notes.txt"] =
      .abortNoVideos ∧
    isNotFoundAbort
      (main_startup "~/Downloads/managerVids" true ["20250618"] ["notes.txt"]) =
      false := by decide

/-- C9 (amended): a missing base path and an absence of candidate
directories each raise NotFoundError (caught by main, which prints the
message and returns); a chosen directory that is missing or contains no
files with accepted extensions makes main print "No video files found."
and return without raising; each path aborts the session before any
window or log is created. -/
theorem C9_startup_amended (bp : String) (folders files : List String)
    (hfolders : folders ≠ []) (hfiles : ∀ f ∈ files, accepted_ext f = false) :
    main_startup bp false folders files =
      .abortNotFound ("Base path does not exist: " ++ bp) ∧
    main_startup bp true [] files =
      .abortNotFound ("No folders found in " ++ bp) ∧
    main_startup bp true folders files = .abortNoVideos := by
  refine ⟨rfl, rfl, ?_⟩
  cases folders with
  | nil => exact absurd rfl hfolders
  | cons a l =>
    have hfe : (files.insertionSort (fun a b => a ≤ b)).filter accepted_ext = [] := by
      rw [List.filter_eq_nil_iff]
      intro f hf
      simp [hfiles f ((List.perm_insertionSort _ files).mem_iff.mp hf)]
    simp only [main_startup, get_available_folders, Bool.false_eq_true, if_false,
      List.isEmpty_cons, hfe]
    rfl

/-- C9 witness: the three startup failure paths at concrete inputs. -/
theorem C9_startup_amended_witness :
    main_startup "b" false ["d"] ["x.txt"] =
      .abortNotFound ("Base path does not exist: " ++ "b") ∧
    main_startup "b" true [] ["x.txt"] =
      .abortNotFound ("No folders found in " ++ "b") ∧
    main_startup "b" true ["d"] ["x.txt"] = .abortNoVideos :=
  C9_startup_amended "b" ["d"] ["x.txt"] (by decide) (by decide)

end Bruh
